import Mathlib

/-
Verification of the control loops of orbitx/flight.py (the Command and
Control server): the lead-server tick loop, the mirroring-client tick
loop, and the shutdown paths of main.  The physics engine, the GUI and
the network layer are collaborators whose code is outside this file; they
are modelled abstractly, faithful to how flight.py calls them.
-/

namespace OrbitX

/-- Modelled from the spec: a command (network.Request) carries an
identifier plus a payload describing the requested mutation.  The wire
schema is external; only the identifier is inspected by flight.py. -/
structure Request where
  ident : Nat
  payload : Nat := 0
deriving DecidableEq, Repr

/-- Modelled from the spec: the reserved no-op sentinel identifier
(network.Request.NOOP).  The concrete numeral is immaterial; flight.py
only compares command identifiers against it. -/
def Request.NOOP : Nat := 0

/-- Modelled from the spec: the physics engine collaborator
(physics.PEngine).  Its state is an opaque value S; handle_request maps a
state and a command to the next state.  get_state returns the current
value and set_state replaces it, so both are implicit in the state
threading below. -/
structure Engine (S : Type) where
  handle_request : S → Request → S

/-- A concrete engine over request histories, used to evaluate the
definitions on closed inputs: each handled request is appended. -/
def recEngine : Engine (List Request) :=
  { handle_request := fun h r => h ++ [r] }

/-- A concrete engine over Nat states, used to evaluate the definitions
on closed inputs. -/
def natEngine : Engine Nat :=
  { handle_request := fun s r => s + r.ident + r.payload }

/-- The command-application loop of the lead server (src/flight.py lines
178 to 182): for each command, if its identifier is NOOP it is skipped
with continue, otherwise it is forwarded to physics_engine.handle_request.
Returns the final engine state and the list of requests forwarded to
handle_request, in order. -/
def lead_process_commands {S : Type} (E : Engine S) :
    S → List Request → S × List Request
  | st, [] => (st, [])
  | st, c :: rest =>
    if c.ident = Request.NOOP then
      lead_process_commands E st rest
    else
      let p := lead_process_commands E (E.handle_request st c) rest
      (p.1, c :: p.2)

/-- Observable outcome of one iteration of the lead-server while loop. -/
structure LeadTickResult (S : Type) where
  published : S
  engineCalls : List Request
  engineState : S
  drawn : Option S
deriving Repr

/-- One iteration of the lead-server while loop (src/flight.py lines 166
to 188): read the engine state, publish a copy of it via
state_server.notify_state_change, collect gui.pop_commands (only when a
GUI is attached) followed by state_server.pop_commands, run the
command-application loop, then draw the snapshotted state (GUI) or sleep
(headless).  guiCmds and netCmds are the lists the two collaborators
return this tick. -/
def lead_server_loop_body {S : Type} (E : Engine S) (noGui : Bool) (st : S)
    (guiCmds netCmds : List Request) : LeadTickResult S :=
  let user_commands := (if noGui then [] else guiCmds) ++ netCmds
  let p := lead_process_commands E st user_commands
  { published := st
    engineCalls := p.2
    engineState := p.1
    drawn := if noGui then none else some st }

/-- Modelled from the spec: a connectivity error raised by the state
client (network.StateClient) when a fetch fails; a distinct, recoverable
error kind. -/
inductive FetchError where
  | connectivity (code : Nat)
deriving DecidableEq, Repr

/-- A Python exception escaping a loop tick: either the AttributeError
raised by the attribute lookup args.pop_commands, or a connectivity
error raised by the state client. -/
inductive PyError where
  | attributeError
  | fetchError (e : FetchError)
deriving DecidableEq, Repr

/-- The statement user_commands = args.pop_commands() at src/flight.py
line 236.  args is the argparse namespace returned by parse_args, which
defines no pop_commands attribute, so the attribute lookup raises
AttributeError; no list of commands is ever produced. -/
def argsPopCommands : Except PyError (List Request) :=
  Except.error PyError.attributeError

/-- The command-application loop of the mirror (src/flight.py lines 237
to 238): each request in user_commands is forwarded to
physics_engine.handle_request, with no filtering.  Returns the final
engine state and the list of requests forwarded, in order. -/
def mirror_apply_commands {S : Type} (E : Engine S) :
    S → List Request → S × List Request
  | st, [] => (st, [])
  | st, r :: rest =>
    let p := mirror_apply_commands E (E.handle_request st r) rest
    (p.1, r :: p.2)

/-- The mutable loop variables of mirroring_loop, threaded between
ticks: the networking flag, time_of_last_network_update, and the engine
state. -/
structure MirrorState (S : Type) where
  networking : Bool
  lastUpdate : Int
  engine : S
deriving DecidableEq, Repr

/-- The collaborator behaviour visible to one iteration of the mirror
while loop: the value gui.lead_server_communication_requested() would
return, the two time.monotonic() readings (at the comparison and after a
fetch), and what mirror_state() would do if called this tick. -/
structure MirrorTickInput (S : Type) where
  toggleReq : Bool
  now : Int
  now2 : Int
  fetchResult : Except FetchError S
deriving Repr

/-- Observable outcome of one iteration of the mirror while loop.
toggleRead records whether gui.lead_server_communication_requested() was
called; fetched whether mirror_state() was called; engineSet the
argument of physics_engine.set_state if called; chosen the value of the
local variable state when the tick reached the drawing step; drawn the
argument of gui.draw if called; engineCalls the requests forwarded to
handle_request; err the exception escaping the tick, if any; stateOut
the loop variables for the next iteration. -/
structure MirrorTickResult (S : Type) where
  toggleRead : Bool
  fetched : Bool
  engineSet : Option S
  chosen : Option S
  drawn : Option S
  engineCalls : List Request
  err : Option PyError
  stateOut : MirrorState S
deriving DecidableEq, Repr

/-- The rendering and local-input step of the mirror tick
(src/flight.py lines 232 to 241): headless it only sleeps; with a GUI it
draws the chosen state, and when not networking it additionally runs
user_commands = args.pop_commands() (which raises AttributeError, see
argsPopCommands) followed by the command-application loop.  Returns the
draw argument, the engine state with the forwarded requests, and the
escaping exception if any. -/
def mirror_draw_step {S : Type} (E : Engine S) (noGui networking : Bool)
    (state engineState : S) :
    Option S × (S × List Request) × Option PyError :=
  if noGui then (none, (engineState, []), none)
  else if networking then (some state, (engineState, []), none)
  else
    match argsPopCommands with
    | Except.error e => (some state, (engineState, []), some e)
    | Except.ok cmds => (some state, mirror_apply_commands E engineState cmds, none)

/-- One iteration of the mirror while loop (src/flight.py lines 212 to
241): with a GUI, re-read the networking toggle; if networking and the
elapsed monotonic time since time_of_last_network_update strictly
exceeds the refresh interval, call mirror_state(), overwrite the engine
state via set_state and record the timestamp (a fetch failure escapes
the tick at that point); otherwise take physics_engine.get_state(); then
run the draw and local-input step.  interval is the constant
common.TIME_BETWEEN_NETWORK_UPDATES. -/
def mirroring_loop_body {S : Type} (E : Engine S) (noGui : Bool)
    (interval : Int) (inp : MirrorTickInput S) (ms : MirrorState S) :
    MirrorTickResult S :=
  let networking := if noGui then ms.networking else inp.toggleReq
  if networking = true ∧ inp.now - ms.lastUpdate > interval then
    match inp.fetchResult with
    | Except.error e =>
      { toggleRead := !noGui, fetched := true, engineSet := none
        chosen := none, drawn := none, engineCalls := []
        err := some (PyError.fetchError e)
        stateOut := ⟨networking, ms.lastUpdate, ms.engine⟩ }
    | Except.ok s =>
      let d := mirror_draw_step E noGui networking s s
      { toggleRead := !noGui, fetched := true, engineSet := some s
        chosen := some s, drawn := d.1, engineCalls := d.2.1.2
        err := d.2.2
        stateOut := ⟨networking, inp.now2, d.2.1.1⟩ }
  else
    let d := mirror_draw_step E noGui networking ms.engine ms.engine
    { toggleRead := !noGui, fetched := false, engineSet := none
      chosen := some ms.engine, drawn := d.1, engineCalls := d.2.1.2
      err := d.2.2
      stateOut := ⟨networking, ms.lastUpdate, d.2.1.1⟩ }

/-- The mirror while loop run over a sequence of per-tick collaborator
behaviours: each tick is mirroring_loop_body; an exception escaping a
tick terminates the loop, so no later tick runs. -/
def mirroring_loop_run {S : Type} (E : Engine S) (noGui : Bool)
    (interval : Int) :
    MirrorState S → List (MirrorTickInput S) → List (MirrorTickResult S)
  | _, [] => []
  | ms, inp :: rest =>
    let r := mirroring_loop_body E noGui interval inp ms
    match r.err with
    | some _ => [r]
    | none => r :: mirroring_loop_run E noGui interval r.stateOut rest

/-- Which of the two module-level globals of flight.py are set to a
callable (rather than left None) before a loop runs: cleanup_function
and ungraceful_shutdown_handler. -/
structure Handlers where
  cleanup_function : Bool
  ungraceful_shutdown_handler : Bool
deriving DecidableEq, Repr

/-- Which handlers each mode registers: lead_server_loop with a GUI sets
cleanup_function to gui.shutdown and ungraceful_shutdown_handler to
gui.ungraceful_shutdown (src/flight.py lines 146 to 153); mirroring_loop
with a GUI sets only cleanup_function (lines 205 to 210); headless runs
set neither. -/
def registeredHandlers (mirror noGui : Bool) : Handlers :=
  if noGui then { cleanup_function := false, ungraceful_shutdown_handler := false }
  else if mirror then { cleanup_function := true, ungraceful_shutdown_handler := false }
  else { cleanup_function := true, ungraceful_shutdown_handler := true }

/-- How the chosen loop terminated: a KeyboardInterrupt, or any other
exception escaping the loop body. -/
inductive LoopOutcome where
  | interrupted
  | fatal (e : PyError)
deriving DecidableEq, Repr

/-- The calls made on the shutdown path of main, and whether the process
exits with non-zero status. -/
structure ShutdownTrace where
  ungracefulCalls : Nat
  cleanupCalls : Nat
  exitNonZero : Bool
deriving DecidableEq, Repr

/-- The except and finally clauses of main (src/flight.py lines 274 to
316): a KeyboardInterrupt is swallowed (exit status 0); any other
exception logs diagnostics, calls ungraceful_shutdown_handler when it is
set, and re-raises (every branch of the AttributeError and ValueError
diagnostic block ends in a re-raise), so the process exits non-zero; in
both cases the finally clause calls cleanup_function when it is set.
Handler calls are assumed not to throw. -/
def mainShutdown (h : Handlers) (outcome : LoopOutcome) : ShutdownTrace :=
  match outcome with
  | LoopOutcome.interrupted =>
    { ungracefulCalls := 0
      cleanupCalls := if h.cleanup_function then 1 else 0
      exitNonZero := false }
  | LoopOutcome.fatal _ =>
    { ungracefulCalls := if h.ungraceful_shutdown_handler then 1 else 0
      cleanupCalls := if h.cleanup_function then 1 else 0
      exitNonZero := true }

theorem lead_process_commands_calls {S : Type} (E : Engine S) (st : S)
    (cs : List Request) :
    (lead_process_commands E st cs).2
      = cs.filter (fun c => c.ident != Request.NOOP) := by
  induction cs generalizing st with
  | nil => rfl
  | cons c rest ih =>
    by_cases h : c.ident = Request.NOOP
    · simp [lead_process_commands, h, List.filter_cons, ih]
    · simp [lead_process_commands, h, List.filter_cons, ih, bne_iff_ne]

/-- C1: in every lead-server tick, the engine observes exactly the
commands collected that tick, in the order local-input commands first
(when a GUI is attached) then network commands, each sub-list in arrival
order, with NOOP entries removed; and no command is forwarded to
handle_request more often than it was collected. -/
theorem lead_tick_command_order {S : Type} (E : Engine S) (noGui : Bool)
    (st : S) (guiCmds netCmds : List Request) :
    (lead_server_loop_body E noGui st guiCmds netCmds).engineCalls
        = ((if noGui then [] else guiCmds) ++ netCmds).filter
            (fun c => c.ident != Request.NOOP)
      ∧ ∀ r : Request,
        ((lead_server_loop_body E noGui st guiCmds netCmds).engineCalls).count r
          ≤ (((if noGui then [] else guiCmds) ++ netCmds)).count r := by
  constructor
  · simp [lead_server_loop_body, lead_process_commands_calls]
  · intro r
    simp only [lead_server_loop_body, lead_process_commands_calls]
    exact List.Sublist.count_le (List.filter_sublist _) r

/-- C7: the snapshot published to the state server in a lead tick is the
engine state read before that tick's commands are applied; in this value
semantics it is therefore unchanged by whatever commands the tick goes on
to apply (the source additionally deep-copies the published proto so
peer-serving threads never alias engine memory). -/
theorem lead_tick_snapshot_before_apply {S : Type} (E : Engine S)
    (noGui : Bool) (st : S) (guiCmds netCmds gc2 nc2 : List Request) :
    (lead_server_loop_body E noGui st guiCmds netCmds).published = st
      ∧ (lead_server_loop_body E noGui st guiCmds netCmds).published
          = (lead_server_loop_body E noGui st gc2 nc2).published := by
  exact ⟨rfl, rfl⟩

theorem mirror_draw_step_eq {S : Type} (E : Engine S) (noGui networking : Bool)
    (state engineState : S) :
    mirror_draw_step E noGui networking state engineState
      = (if noGui then none else some state, (engineState, []),
         if noGui then none
         else if networking then none else some PyError.attributeError) := by
  cases noGui <;> cases networking <;>
    simp [mirror_draw_step, argsPopCommands]

/-- C3 (code bug): in every mirror tick with a renderer attached and the
connectivity toggle off (Local mode), the local-input collection step
raises AttributeError — the source reads args.pop_commands() where args
is the argparse namespace — so no locally generated command is ever
collected from the renderer or applied to the engine, and the exception
escapes the loop. -/
theorem mirror_local_input_raises {S : Type} (E : Engine S)
    (interval : Int) (now now2 : Int) (fr : Except FetchError S)
    (ms : MirrorState S) :
    (mirroring_loop_body E false interval ⟨false, now, now2, fr⟩ ms).err
        = some PyError.attributeError
    ∧ (mirroring_loop_body E false interval ⟨false, now, now2, fr⟩ ms).engineCalls
        = [] := by
  cases fr <;> simp [mirroring_loop_body, mirror_draw_step_eq]

/-- C4 counterexample: a fetch failure terminates the mirror loop.  With
two ticks of collaborator behaviour available, a connectivity error on
the first fetch ends the run after one tick — the loop does not continue
to the next tick — and the error escapes. -/
theorem fetch_failure_terminates_loop_counterexample :
    (mirroring_loop_run natEngine true 1 ⟨true, 0, 42⟩
        [⟨false, 5, 5, Except.error (FetchError.connectivity 7)⟩,
         ⟨false, 6, 6, Except.ok 1⟩]).length = 1
    ∧ ((mirroring_loop_run natEngine true 1 ⟨true, 0, 42⟩
        [⟨false, 5, 5, Except.error (FetchError.connectivity 7)⟩,
         ⟨false, 6, 6, Except.ok 1⟩]).map MirrorTickResult.err)
        = [some (PyError.fetchError (FetchError.connectivity 7))] := by
  decide

/-- C4 amended: a connectivity error raised by the state client during a
mirror-tick fetch is not caught inside the loop: the tick ends with that
error, the loop terminates immediately (no later tick runs), and the
error propagates to the process-level handler in main. -/
theorem fetch_failure_escapes_mirroring_loop {S : Type} (E : Engine S)
    (interval : Int) (tr : Bool) (now now2 : Int) (e : FetchError)
    (ms : MirrorState S) (rest : List (MirrorTickInput S))
    (hnet : ms.networking = true)
    (helapsed : now - ms.lastUpdate > interval) :
    mirroring_loop_run E true interval ms
        (⟨tr, now, now2, Except.error e⟩ :: rest)
      = [mirroring_loop_body E true interval ⟨tr, now, now2, Except.error e⟩ ms]
    ∧ (mirroring_loop_body E true interval ⟨tr, now, now2, Except.error e⟩ ms).err
      = some (PyError.fetchError e) := by
  have hbody : (mirroring_loop_body E true interval
      ⟨tr, now, now2, Except.error e⟩ ms).err = some (PyError.fetchError e) := by
    simp [mirroring_loop_body, hnet, helapsed]
  refine ⟨?_, hbody⟩
  simp [mirroring_loop_run, hbody]

theorem fetch_failure_escapes_mirroring_loop_witness :
    mirroring_loop_run natEngine true 1 ⟨true, 0, 42⟩
        [⟨false, 5, 5, Except.error (FetchError.connectivity 7)⟩]
      = [mirroring_loop_body natEngine true 1
          ⟨false, 5, 5, Except.error (FetchError.connectivity 7)⟩ ⟨true, 0, 42⟩]
    ∧ (mirroring_loop_body natEngine true 1
        ⟨false, 5, 5, Except.error (FetchError.connectivity 7)⟩ ⟨true, 0, 42⟩).err
      = some (PyError.fetchError (FetchError.connectivity 7)) :=
  fetch_failure_escapes_mirroring_loop natEngine 1 false 5 5
    (FetchError.connectivity 7) ⟨true, 0, 42⟩ [] rfl (by decide)

/-- C5: in every mirror tick, while the mode (the networking flag after
the toggle read) is Networked, no locally collected command is forwarded
to the engine; while the mode is Local, mirror_state() is not called. -/
theorem mirror_mode_exclusion {S : Type} (E : Engine S) (noGui : Bool)
    (interval : Int) (inp : MirrorTickInput S) (ms : MirrorState S) :
    ((mirroring_loop_body E noGui interval inp ms).stateOut.networking = true →
        (mirroring_loop_body E noGui interval inp ms).engineCalls = [])
    ∧ ((mirroring_loop_body E noGui interval inp ms).stateOut.networking = false →
        (mirroring_loop_body E noGui interval inp ms).fetched = false) := by
  obtain ⟨tr, now, now2, fr⟩ := inp
  obtain ⟨nw, lu, st⟩ := ms
  cases noGui <;> cases nw <;> cases tr <;> cases fr <;>
    by_cases hc : now - lu > interval <;>
      simp [mirroring_loop_body, mirror_draw_step_eq, hc]

theorem mirror_mode_exclusion_witness :
    (mirroring_loop_body natEngine false 1 ⟨true, 5, 9, Except.ok 3⟩
        ⟨true, 0, 42⟩).engineCalls = []
    ∧ (mirroring_loop_body natEngine false 1 ⟨false, 5, 9, Except.ok 3⟩
        ⟨true, 0, 42⟩).fetched = false :=
  ⟨(mirror_mode_exclusion natEngine false 1 ⟨true, 5, 9, Except.ok 3⟩
      ⟨true, 0, 42⟩).1 (by decide),
   (mirror_mode_exclusion natEngine false 1 ⟨false, 5, 9, Except.ok 3⟩
      ⟨true, 0, 42⟩).2 (by decide)⟩

/-- C6 (code bug): the lead-server command loop never forwards a request
whose identifier is the NOOP sentinel to handle_request, but the mirror
command-application loop has no such filter: it forwards every request
in user_commands, a NOOP request included. -/
theorem noop_reaches_mirror_engine :
    (∀ (S : Type) (E : Engine S) (st : S) (cs : List Request),
        ((lead_process_commands E st cs).2.all
            (fun c => c.ident != Request.NOOP)) = true)
    ∧ (mirror_apply_commands recEngine [] [{ ident := Request.NOOP, payload := 3 }]).2
        = [{ ident := Request.NOOP, payload := 3 }] := by
  constructor
  · intro S E st cs
    rw [lead_process_commands_calls]
    rw [List.all_eq_true]
    intro c hc
    exact (List.mem_filter.mp hc).2
  · rfl

/-- C8: in every mirror tick, mirror_state() is called exactly when the
mode is Networked and the elapsed monotonic time since the last recorded
update strictly exceeds the refresh interval; on a successful fetch the
engine state is overwritten with the fetched snapshot, the second
monotonic reading is recorded, and the fetched snapshot is the state
chosen for rendering; with no fetch, the engine keeps its state, the
timestamp is unchanged, and the engine's own state is chosen. -/
theorem mirror_fetch_policy {S : Type} (E : Engine S) (noGui : Bool)
    (interval : Int) (inp : MirrorTickInput S) (ms : MirrorState S) :
    ((mirroring_loop_body E noGui interval inp ms).fetched = true
        ↔ ((if noGui then ms.networking else inp.toggleReq) = true
            ∧ inp.now - ms.lastUpdate > interval))
    ∧ (∀ s : S, inp.fetchResult = Except.ok s →
        (mirroring_loop_body E noGui interval inp ms).fetched = true →
          (mirroring_loop_body E noGui interval inp ms).engineSet = some s
          ∧ (mirroring_loop_body E noGui interval inp ms).stateOut.engine = s
          ∧ (mirroring_loop_body E noGui interval inp ms).stateOut.lastUpdate = inp.now2
          ∧ (mirroring_loop_body E noGui interval inp ms).chosen = some s)
    ∧ ((mirroring_loop_body E noGui interval inp ms).fetched = false →
        (mirroring_loop_body E noGui interval inp ms).chosen = some ms.engine
        ∧ (mirroring_loop_body E noGui interval inp ms).engineSet = none
        ∧ (mirroring_loop_body E noGui interval inp ms).stateOut.lastUpdate = ms.lastUpdate
        ∧ (mirroring_loop_body E noGui interval inp ms).stateOut.engine = ms.engine) := by
  obtain ⟨tr, now, now2, fr⟩ := inp
  obtain ⟨nw, lu, st⟩ := ms
  cases noGui <;> cases nw <;> cases tr <;> cases fr <;>
    by_cases hc : now - lu > interval <;>
      simp [mirroring_loop_body, mirror_draw_step_eq, hc]

theorem mirror_fetch_policy_witness :
    ((mirroring_loop_body natEngine true 1 ⟨false, 5, 9, Except.ok 3⟩
        ⟨true, 0, 42⟩).engineSet = some 3
      ∧ (mirroring_loop_body natEngine true 1 ⟨false, 5, 9, Except.ok 3⟩
          ⟨true, 0, 42⟩).stateOut.engine = 3
      ∧ (mirroring_loop_body natEngine true 1 ⟨false, 5, 9, Except.ok 3⟩
          ⟨true, 0, 42⟩).stateOut.lastUpdate = 9
      ∧ (mirroring_loop_body natEngine true 1 ⟨false, 5, 9, Except.ok 3⟩
          ⟨true, 0, 42⟩).chosen = some 3)
    ∧ ((mirroring_loop_body natEngine true 1 ⟨false, 1, 1, Except.ok 3⟩
          ⟨true, 0, 42⟩).chosen = some 42
      ∧ (mirroring_loop_body natEngine true 1 ⟨false, 1, 1, Except.ok 3⟩
          ⟨true, 0, 42⟩).engineSet = none
      ∧ (mirroring_loop_body natEngine true 1 ⟨false, 1, 1, Except.ok 3⟩
          ⟨true, 0, 42⟩).stateOut.lastUpdate = 0
      ∧ (mirroring_loop_body natEngine true 1 ⟨false, 1, 1, Except.ok 3⟩
          ⟨true, 0, 42⟩).stateOut.engine = 42) :=
  ⟨(mirror_fetch_policy natEngine true 1 ⟨false, 5, 9, Except.ok 3⟩
      ⟨true, 0, 42⟩).2.1 3 rfl (by decide),
   (mirror_fetch_policy natEngine true 1 ⟨false, 1, 1, Except.ok 3⟩
      ⟨true, 0, 42⟩).2.2 (by decide)⟩

/-- C2 counterexample: with both handlers registered (lead server with a
GUI), a fatal error escaping the loop does not leave the graceful
cleanup uncalled: the finally clause of main calls cleanup_function once,
so the number of graceful-shutdown calls is 1, not zero as the claim
states. -/
theorem fatal_error_cleanup_runs :
    (mainShutdown ⟨true, true⟩
        (LoopOutcome.fatal PyError.attributeError)).cleanupCalls = 1 := by
  decide

/-- C2 amended: for every fatal (non-interrupt) error escaping a loop
body, with both handlers registered the process calls the ungraceful
shutdown hook exactly once and then, in the finally clause, also calls
the graceful cleanup function exactly once, and exits with non-zero
status after logging diagnostics. -/
theorem fatal_error_shutdown_amended (h : Handlers) (e : PyError)
    (hu : h.ungraceful_shutdown_handler = true)
    (hc : h.cleanup_function = true) :
    (mainShutdown h (LoopOutcome.fatal e)).ungracefulCalls = 1
    ∧ (mainShutdown h (LoopOutcome.fatal e)).cleanupCalls = 1
    ∧ (mainShutdown h (LoopOutcome.fatal e)).exitNonZero = true := by
  simp [mainShutdown, hu, hc]

theorem fatal_error_shutdown_amended_witness :
    (mainShutdown ⟨true, true⟩
        (LoopOutcome.fatal PyError.attributeError)).ungracefulCalls = 1
    ∧ (mainShutdown ⟨true, true⟩
        (LoopOutcome.fatal PyError.attributeError)).cleanupCalls = 1
    ∧ (mainShutdown ⟨true, true⟩
        (LoopOutcome.fatal PyError.attributeError)).exitNonZero = true :=
  fatal_error_shutdown_amended ⟨true, true⟩ PyError.attributeError rfl rfl

/-- C9: the mirror never registers the ungraceful shutdown handler, so a
fatal error escaping the mirror loop invokes no ungraceful-shutdown
hook; only the graceful cleanup (the renderer shutdown, when a renderer
was attached) runs on exit. -/
theorem mirror_never_ungraceful (noGui : Bool) (e : PyError) :
    (registeredHandlers true noGui).ungraceful_shutdown_handler = false
    ∧ (mainShutdown (registeredHandlers true noGui)
        (LoopOutcome.fatal e)).ungracefulCalls = 0
    ∧ (mainShutdown (registeredHandlers true noGui)
        (LoopOutcome.fatal e)).cleanupCalls = (if noGui then 0 else 1) := by
  cases noGui <;> simp [registeredHandlers, mainShutdown]

theorem headless_tick_props {S : Type} (E : Engine S) (interval : Int)
    (inp : MirrorTickInput S) (ms : MirrorState S) :
    (mirroring_loop_body E true interval inp ms).stateOut.networking
        = ms.networking
    ∧ (mirroring_loop_body E true interval inp ms).toggleRead = false
    ∧ (mirroring_loop_body E true interval inp ms).engineCalls = []
    ∧ (mirroring_loop_body E true interval inp ms).drawn = none
    ∧ (mirroring_loop_body E true interval inp ms).err
        ≠ some PyError.attributeError
    ∧ ((mirroring_loop_body E true interval inp ms).fetched = false →
        (mirroring_loop_body E true interval inp ms).chosen
          = some (mirroring_loop_body E true interval inp ms).stateOut.engine) := by
  obtain ⟨tr, now, now2, fr⟩ := inp
  obtain ⟨nw, lu, st⟩ := ms
  cases nw <;> cases tr <;> cases fr <;>
    by_cases hc : now - lu > interval <;>
      simp [mirroring_loop_body, mirror_draw_step_eq, hc]

/-- C10: a headless mirror run starting Networked stays Networked
forever: the connectivity toggle is never read, every executed tick
keeps the networking flag true, never raises the local-input
AttributeError, never draws, forwards no command to the engine, and when
it does not fetch it chooses the engine's own state. -/
theorem headless_mirror_stays_networked {S : Type} (E : Engine S)
    (interval : Int) (ms : MirrorState S)
    (inputs : List (MirrorTickInput S)) (hnet : ms.networking = true) :
    ∀ r ∈ mirroring_loop_run E true interval ms inputs,
      r.stateOut.networking = true
      ∧ r.toggleRead = false
      ∧ r.engineCalls = []
      ∧ r.drawn = none
      ∧ r.err ≠ some PyError.attributeError
      ∧ (r.fetched = false → r.chosen = some r.stateOut.engine) := by
  induction inputs generalizing ms with
  | nil =>
    intro r hr
    simp [mirroring_loop_run] at hr
  | cons inp rest ih =>
    intro r hr
    have hp := headless_tick_props E interval inp ms
    cases he : (mirroring_loop_body E true interval inp ms).err with
    | some e =>
      simp [mirroring_loop_run, he] at hr
      subst hr
      exact ⟨hp.1.trans hnet, hp.2.1, hp.2.2.1, hp.2.2.2.1,
        hp.2.2.2.2.1, hp.2.2.2.2.2⟩
    | none =>
      simp [mirroring_loop_run, he] at hr
      rcases hr with hr | hr
      · subst hr
        exact ⟨hp.1.trans hnet, hp.2.1, hp.2.2.1, hp.2.2.2.1,
          hp.2.2.2.2.1, hp.2.2.2.2.2⟩
      · exact ih _ (hp.1.trans hnet) r hr

theorem headless_mirror_stays_networked_witness :
    (mirroring_loop_body natEngine true 1 ⟨false, 5, 9, Except.ok 3⟩
        ⟨true, 0, 42⟩).stateOut.networking = true
    ∧ (mirroring_loop_body natEngine true 1 ⟨false, 5, 9, Except.ok 3⟩
        ⟨true, 0, 42⟩).toggleRead = false
    ∧ (mirroring_loop_body natEngine true 1 ⟨false, 5, 9, Except.ok 3⟩
        ⟨true, 0, 42⟩).engineCalls = []
    ∧ (mirroring_loop_body natEngine true 1 ⟨false, 5, 9, Except.ok 3⟩
        ⟨true, 0, 42⟩).drawn = none
    ∧ (mirroring_loop_body natEngine true 1 ⟨false, 5, 9, Except.ok 3⟩
        ⟨true, 0, 42⟩).err ≠ some PyError.attributeError
    ∧ ((mirroring_loop_body natEngine true 1 ⟨false, 5, 9, Except.ok 3⟩
        ⟨true, 0, 42⟩).fetched = false →
      (mirroring_loop_body natEngine true 1 ⟨false, 5, 9, Except.ok 3⟩
        ⟨true, 0, 42⟩).chosen
        = some (mirroring_loop_body natEngine true 1 ⟨false, 5, 9, Except.ok 3⟩
            ⟨true, 0, 42⟩).stateOut.engine) :=
  headless_mirror_stays_networked natEngine 1 ⟨true, 0, 42⟩
    [⟨false, 5, 9, Except.ok 3⟩] rfl
    (mirroring_loop_body natEngine true 1 ⟨false, 5, 9, Except.ok 3⟩
      ⟨true, 0, 42⟩) (by decide)

end OrbitX
